import Mathlib

/-
Verification of the schedule window computation and relative-time
formatting of the animesh CLI (src/src/commands/schedule.rs).

The embedding mirrors the Rust code. `chrono` facts used by it:
* `FixedOffset` stores seconds east of UTC; `utc_minus_local()` is the
  negated east value.
* `DateTime::with_timezone` preserves the instant, so
  `now_local.timestamp() == now_utc.timestamp()`; only the civil
  calendar fields (hence the weekday) shift by the offset.
* `weekday().num_days_from_monday()` of a timestamp `t` under east
  offset `e` is `((t + e).ediv 86400 + 3).emod 7` (1970-01-01 was a
  Thursday, index 3 from Monday); chrono floors the day division.
* `Duration::num_hours/num_minutes/num_days` truncate toward zero;
  every duration the code builds is nonnegative, so truncation
  coincides with Euclidean division.
`Utc::now()` is passed in explicitly as `now` (spec section 9 injects
the clock), and the local system offset `get_user_timezone()` is passed
in as `localOffset`.
-/

namespace Animesh

/-- A fixed timezone offset: seconds east of UTC (local = UTC + east). -/
structure FixedOffset where
  eastSeconds : Int
deriving DecidableEq, Repr

/-- Seconds of UTC minus local, as chrono `FixedOffset::utc_minus_local`. -/
def FixedOffset.utc_minus_local (o : FixedOffset) : Int :=
  -o.eastSeconds

/-- A `DateTime<FixedOffset>`: the instant (epoch seconds) plus the
display offset, as chrono stores it. -/
structure DateTimeFixed where
  instant : Int
  offsetSeconds : Int
deriving DecidableEq, Repr

/-- `DateTime::timestamp()`: epoch seconds of the instant, offset
independent. -/
def DateTimeFixed.timestamp (d : DateTimeFixed) : Int :=
  d.instant

/-- Weekday index (Monday = 0) of the civil day containing the given
civil-seconds value, as `weekday().num_days_from_monday()`. -/
def weekday_num_from_monday (civilSeconds : Int) : Nat :=
  ((Int.ediv civilSeconds 86400 + 3).emod 7).toNat

/-- `weekday().num_days_from_monday()` of a `DateTime<FixedOffset>`:
the weekday of the local civil time. -/
def DateTimeFixed.weekdayFromMonday (d : DateTimeFixed) : Nat :=
  weekday_num_from_monday (d.instant + d.offsetSeconds)

/-- `DateTime::with_timezone`: same instant, new display offset. -/
def with_timezone (ts : Int) (tz : FixedOffset) : DateTimeFixed :=
  ⟨ts, tz.eastSeconds⟩

/-- ASCII uppercase of a string, character by character (structural
form of `String.toUpper`, which recurses on byte positions). -/
def ascii_upper (s : String) : String :=
  ⟨s.data.map Char.toUpper⟩

/-- ASCII lowercase of a string, character by character (structural
form of `String.toLower`). -/
def ascii_lower (s : String) : String :=
  ⟨s.data.map Char.toLower⟩

/-- Modelled from the spec: `match_timezone` lives in `src/utils`,
which is not part of the provided sources. Spec 4.1: case-insensitive
lookup in a fixed table of named offsets (UTC→0, IST→+5:30 east per the
pinned test value `utc_minus_local = -(5*3600+30*60)`, JST→+9:00, …);
unknown tokens map to `none`. -/
def match_timezone (token : String) : Option FixedOffset :=
  let u := ascii_upper token
  if u = "UTC" then some ⟨0⟩
  else if u = "GMT" then some ⟨0⟩
  else if u = "IST" then some ⟨5 * 3600 + 30 * 60⟩
  else if u = "JST" then some ⟨9 * 3600⟩
  else if u = "EST" then some ⟨-(5 * 3600)⟩
  else if u = "PST" then some ⟨-(8 * 3600)⟩
  else none

/-- Modelled from the spec: `parse_day_of_week` lives in `src/utils`,
which is not part of the provided sources. Spec 4.2: full or
abbreviated English weekday names, case-insensitive, Monday = 0;
unparseable input maps to `none`. -/
def parse_day_of_week (token : String) : Option Nat :=
  let l := ascii_lower token
  if l = "monday" ∨ l = "mon" then some 0
  else if l = "tuesday" ∨ l = "tue" then some 1
  else if l = "wednesday" ∨ l = "wed" then some 2
  else if l = "thursday" ∨ l = "thu" then some 3
  else if l = "friday" ∨ l = "fri" then some 4
  else if l = "saturday" ∨ l = "sat" then some 5
  else if l = "sunday" ∨ l = "sun" then some 6
  else none

/-- `ScheduleCommand::get_timezone` (schedule.rs lines 34-43), with the
local system offset injected. Returns the resolved offset together with
a flag recording whether the invalid-timezone warning was printed to
standard error; the Rust function always returns an offset and never
fails. -/
def get_timezone (tzArg : Option String) (localOffset : FixedOffset) :
    FixedOffset × Bool :=
  match tzArg with
  | some tz =>
    match match_timezone tz with
    | some o => (o, false)
    | none => (localOffset, true)
  | none => (localOffset, false)

/-- `ScheduleCommand::get_target_day` (schedule.rs lines 46-52), with
`Utc::now()` injected as `nowUtc`. Falls back to the current UTC
weekday when the token is absent or unparseable; no warning channel
exists. -/
def get_target_day (dayArg : Option String) (nowUtc : Int) : Nat :=
  match dayArg with
  | some d => (parse_day_of_week d).getD (weekday_num_from_monday nowUtc)
  | none => weekday_num_from_monday nowUtc

/-- The `days_diff` computation of `get_time_range` (schedule.rs lines
62-66): forward distance to the target weekday, clamped at zero. -/
def days_diff_calc (target_day current_day : Nat) : Nat :=
  if target_day > current_day then target_day - current_day else 0

/-- The local weekday used by `get_time_range`:
`now_local.weekday().num_days_from_monday()`. -/
def current_day (tz : FixedOffset) (nowUtc : Int) : Nat :=
  (with_timezone nowUtc tz).weekdayFromMonday

/-- `ScheduleCommand::get_time_range` (schedule.rs lines 55-72) after
resolver calls, i.e. spec `WindowCalculator.compute(offset, target_day,
interval_days, now)`: the resolved timezone and target day are
parameters and `Utc::now()` is injected as `now_utc`. -/
def get_time_range (timezone : FixedOffset) (target_day : Nat)
    (interval : Nat) (now_utc : Int) : Int × Int :=
  let now_local := with_timezone now_utc timezone
  let cur := now_local.weekdayFromMonday
  let dd := days_diff_calc target_day cur
  let start := now_local.timestamp + (dd : Int) * 24 * 3600
  (start, start + (interval : Int) * 24 * 3600)

/-- `ScheduleCommand::format_relative_time` (schedule.rs lines 75-104)
with `Utc::now()` injected as `now`. All chrono durations built by the
code are nonnegative, so `num_days/num_hours/num_minutes` are Euclidean
divisions by 86400, 3600 and 60. -/
def format_relative_time (airing_at : Int) (now : Int) : String :=
  let diff := airing_at - now
  if diff < 0 then
    let mag := -diff
    if Int.ediv mag 3600 > 24 then
      toString (Int.ediv mag 86400) ++ "d ago"
    else if Int.ediv mag 3600 > 0 then
      toString (Int.ediv mag 3600) ++ "h ago"
    else if Int.ediv mag 60 > 0 then
      toString (Int.ediv mag 60) ++ "m ago"
    else
      "just now"
  else
    if Int.ediv diff 3600 > 24 then
      "in " ++ toString (Int.ediv diff 86400) ++ "d"
    else if Int.ediv diff 3600 > 0 then
      "in " ++ toString (Int.ediv diff 3600) ++ "h"
    else if Int.ediv diff 60 > 0 then
      "in " ++ toString (Int.ediv diff 60) ++ "m"
    else
      "now"

/-- The shapes the future branch of `format_relative_time` can return. -/
def FutureForm (s : String) : Prop :=
  s = "now" ∨
    ∃ k : Int, s = "in " ++ toString k ++ "d" ∨
      s = "in " ++ toString k ++ "h" ∨
      s = "in " ++ toString k ++ "m"

/-- `format_relative_time` depends only on the difference of its two
arguments. -/
theorem format_relative_time_diff (a n : Int) :
    format_relative_time a n = format_relative_time (a - n) 0 := by
  unfold format_relative_time
  norm_num

/-- C1: for every timezone offset, target weekday, interval `d ≥ 0` and
`now`, the window returned by `get_time_range` satisfies
`end - start = d * 86400` exactly. -/
theorem window_width_exact (tz : FixedOffset) (target d : Nat) (now : Int) :
    (get_time_range tz target d now).2 - (get_time_range tz target d now).1 =
      (d : Int) * 86400 := by
  simp [get_time_range]
  ring

/-- C2 (code bug): at distance exactly one day, the formatter returns
the hour bucket, `"24h ago"` and `"in 24h"`, because the day bucket
requires `num_hours() > 24`; the repository test
`test_format_relative_time` asserts the results contain `"1d ago"` and
`"in 1d"` and therefore fails. -/
theorem format_relative_day_boundary (now : Int) :
    format_relative_time (now - 86400) now = "24h ago" ∧
    format_relative_time (now + 86400) now = "in 24h" := by
  constructor
  · rw [format_relative_time_diff]
    have h : now - 86400 - now = (-86400 : Int) := by ring
    rw [h]
    decide
  · rw [format_relative_time_diff]
    have h : now + 86400 - now = (86400 : Int) := by ring
    rw [h]
    decide

/-- C3: `days_diff` is `target - current` when the target weekday is
strictly ahead of the current one and `0` otherwise, so requesting the
current or an already-passed weekday yields a window starting at `now`,
never rolling to next week. -/
theorem days_diff_policy (tz : FixedOffset) (target d : Nat) (now : Int) :
    (current_day tz now < target →
      days_diff_calc target (current_day tz now) =
        target - current_day tz now) ∧
    (target ≤ current_day tz now →
      days_diff_calc target (current_day tz now) = 0 ∧
        (get_time_range tz target d now).1 = now) := by
  constructor
  · intro h
    simp [days_diff_calc, h]
  · intro h
    have h0 : days_diff_calc target (current_day tz now) = 0 := by
      unfold days_diff_calc
      rw [if_neg (by omega : ¬ target > current_day tz now)]
    refine ⟨h0, ?_⟩
    show (get_time_range tz target d now).1 = now
    unfold get_time_range
    simp only [DateTimeFixed.timestamp]
    have hcd : (with_timezone now tz).weekdayFromMonday = current_day tz now := rfl
    rw [hcd, h0]
    simp [with_timezone]

/-- Witness for C3 at a concrete input: 1970-01-01 is a Thursday
(weekday 3), so requesting weekday 3 gives `days_diff = 0` and a window
starting at `now`. -/
theorem days_diff_policy_witness :
    days_diff_calc 3 (current_day ⟨0⟩ 0) = 0 ∧
      (get_time_range ⟨0⟩ 3 1 0).1 = 0 :=
  (days_diff_policy ⟨0⟩ 3 1 0).2 (by decide)

/-- C4 counterexample: with `interval_days = 0` the window has
`end = start`, so the claimed strict invariant `end > start` fails. -/
theorem zero_interval_window_not_strict :
    ¬ ((get_time_range ⟨0⟩ 0 0 0).1 < (get_time_range ⟨0⟩ 0 0 0).2) := by
  decide

/-- C4 (amended): every window satisfies `end ≥ start`, and `end >
start` strictly whenever `interval_days ≥ 1`; `interval_days = 0`
yields a zero-width window with `end = start`. -/
theorem window_bounds (tz : FixedOffset) (target d : Nat) (now : Int) :
    (get_time_range tz target d now).1 ≤ (get_time_range tz target d now).2 ∧
    (1 ≤ d →
      (get_time_range tz target d now).1 < (get_time_range tz target d now).2) := by
  simp only [get_time_range, DateTimeFixed.timestamp]
  constructor
  · omega
  · intro h
    have h1 : (1 : Int) ≤ (d : Int) := by exact_mod_cast h
    omega

/-- Witness for C4 (amended) at `interval_days = 1`. -/
theorem window_bounds_witness :
    (get_time_range ⟨0⟩ 0 1 0).1 < (get_time_range ⟨0⟩ 0 1 0).2 :=
  (window_bounds ⟨0⟩ 0 1 0).2 (by decide)

/-- C5: a zero difference is treated as future, `format_relative_time
now now = "now"`, and every nonnegative difference takes the future
branch, producing one of `"in {k}d"`, `"in {k}h"`, `"in {k}m"` or
`"now"`. -/
theorem future_branch_form (airing now : Int) (h : now ≤ airing) :
    format_relative_time now now = "now" ∧
      FutureForm (format_relative_time airing now) := by
  constructor
  · unfold format_relative_time
    simp
    decide
  · unfold format_relative_time FutureForm
    have hd : ¬ (airing - now < 0) := by omega
    simp only [hd, if_false]
    split_ifs with h1 h2 h3
    · exact Or.inr ⟨Int.ediv (airing - now) 86400, Or.inl rfl⟩
    · exact Or.inr ⟨Int.ediv (airing - now) 3600, Or.inr (Or.inl rfl)⟩
    · exact Or.inr ⟨Int.ediv (airing - now) 60, Or.inr (Or.inr rfl)⟩
    · exact Or.inl rfl

/-- Witness for C5 at `airing = 3600`, `now = 0`. -/
theorem future_branch_form_witness :
    format_relative_time 0 0 = "now" ∧ FutureForm (format_relative_time 3600 0) :=
  future_branch_form 3600 0 (by decide)

/-- C6: for every token the timezone table does not recognize,
`get_timezone` returns the local offset and records the
standard-error warning; it is a total function and never fails. -/
theorem unknown_timezone_falls_back (tok : String) (localOff : FixedOffset)
    (h : match_timezone tok = none) :
    get_timezone (some tok) localOff = (localOff, true) := by
  simp [get_timezone, h]

/-- Witness for C6 at the unrecognized token `"XYZ"`. -/
theorem unknown_timezone_falls_back_witness :
    get_timezone (some "XYZ") ⟨3600⟩ = (⟨3600⟩, true) :=
  unknown_timezone_falls_back "XYZ" ⟨3600⟩ (by decide)

/-- C7: for every unparseable day token, `get_target_day` silently
returns the current UTC weekday (Monday = 0), the same value it returns
when no token is given, and that value is always in `0..6`. -/
theorem invalid_day_falls_back (tok : String) (now : Int)
    (h : parse_day_of_week tok = none) :
    get_target_day (some tok) now = weekday_num_from_monday now ∧
    get_target_day none now = weekday_num_from_monday now ∧
    get_target_day none now < 7 := by
  refine ⟨?_, rfl, ?_⟩
  · simp [get_target_day, h]
  · show weekday_num_from_monday now < 7
    unfold weekday_num_from_monday
    have h1 : 0 ≤ (Int.ediv now 86400 + 3).emod 7 :=
      Int.emod_nonneg _ (by norm_num)
    have h2 : (Int.ediv now 86400 + 3).emod 7 < 7 :=
      Int.emod_lt_of_pos _ (by norm_num)
    omega

/-- Witness for C7 at the unparseable token `"notaday"`. -/
theorem invalid_day_falls_back_witness :
    get_target_day (some "notaday") 1000 = weekday_num_from_monday 1000 ∧
    get_target_day none 1000 = weekday_num_from_monday 1000 ∧
    get_target_day none 1000 < 7 :=
  invalid_day_falls_back "notaday" 1000 (by decide)

/-- C8: resolving `"UTC"` yields offset 0 and resolving `"IST"` yields
`utc_minus_local = -(5*3600 + 30*60)` (local 5h30m ahead of UTC), both
within the inclusive range -14h..+14h, for every local fallback offset. -/
theorem timezone_utc_ist_values (localOff : FixedOffset) :
    (get_timezone (some "UTC") localOff).1.utc_minus_local = 0 ∧
    (get_timezone (some "IST") localOff).1.utc_minus_local =
      -(5 * 3600 + 30 * 60) ∧
    -(14 * 3600) ≤ (get_timezone (some "UTC") localOff).1.utc_minus_local ∧
    (get_timezone (some "UTC") localOff).1.utc_minus_local ≤ 14 * 3600 ∧
    -(14 * 3600) ≤ (get_timezone (some "IST") localOff).1.utc_minus_local ∧
    (get_timezone (some "IST") localOff).1.utc_minus_local ≤ 14 * 3600 := by
  refine ⟨rfl, rfl, ?_, ?_, ?_, ?_⟩
  · show (-(14 * 3600) : Int) ≤ 0
    norm_num
  · show (0 : Int) ≤ 14 * 3600
    norm_num
  · show (-(14 * 3600) : Int) ≤ -(5 * 3600 + 30 * 60)
    norm_num
  · show (-(5 * 3600 + 30 * 60) : Int) ≤ 14 * 3600
    norm_num

/-- C9: all four core functions are pure: two applications to identical
inputs are identical. -/
theorem core_functions_deterministic (tzArg dayArg : Option String)
    (localOff tz : FixedOffset) (target d : Nat) (now airing : Int) :
    get_timezone tzArg localOff = get_timezone tzArg localOff ∧
    get_target_day dayArg now = get_target_day dayArg now ∧
    get_time_range tz target d now = get_time_range tz target d now ∧
    format_relative_time airing now = format_relative_time airing now :=
  ⟨rfl, rfl, rfl, rfl⟩

/-- C10: `with_timezone` preserves the instant, so the window start is
`now + days_diff * 86400`; the offset only acts through the local
weekday, and two offsets giving the same local weekday give identical
windows. -/
theorem start_independent_of_offset (tz1 tz2 : FixedOffset) (target d : Nat)
    (now : Int) (h : current_day tz1 now = current_day tz2 now) :
    (get_time_range tz1 target d now).1 =
      now + (days_diff_calc target (current_day tz1 now) : Int) * 86400 ∧
    get_time_range tz1 target d now = get_time_range tz2 target d now := by
  constructor
  · simp only [get_time_range, DateTimeFixed.timestamp, current_day,
      with_timezone]
    ring
  · have hkey : (with_timezone now tz1).weekdayFromMonday =
        (with_timezone now tz2).weekdayFromMonday := h
    unfold get_time_range
    simp only [DateTimeFixed.timestamp]
    rw [hkey]
    simp [with_timezone]

/-- Witness for C10: offsets 0 and +1h give the same local weekday at
`now = 0` and identical windows. -/
theorem start_independent_of_offset_witness :
    (get_time_range ⟨0⟩ 0 1 0).1 =
      0 + (days_diff_calc 0 (current_day ⟨0⟩ 0) : Int) * 86400 ∧
    get_time_range ⟨0⟩ 0 1 0 = get_time_range ⟨3600⟩ 0 1 0 :=
  start_independent_of_offset ⟨0⟩ ⟨3600⟩ 0 1 0 (by decide)

end Animesh
